import Mathlib

/-!
Shallow embedding of the `mcp-core` crate of `rust_misp_mcp`: the JSON-RPC
protocol types (`protocol.rs`), the error taxonomy (`error.rs`), the tool
registry (`registry.rs`), the server state machine and dispatch loop
(`server.rs`), and the stdio / channel transports (`transport.rs`).

JSON values (`serde_json::Value`) are modelled by the inductive `Json` below;
objects are association lists in emission order (JSON object key order is not
semantically significant).  Text-level JSON tokenization is not modelled: an
input line carries the result of tokenizing its text as an `Option Json`.
-/

/-- Model of `serde_json::Value`.  Numbers are modelled as integers, which
covers every numeric value the claims exercise (request ids). -/
inductive Json where
  | null : Json
  | bool (b : Bool) : Json
  | num (n : Int) : Json
  | str (s : String) : Json
  | arr (elems : List Json) : Json
  | obj (fields : List (String × Json)) : Json
deriving Repr

/-- First value bound to key `k` in a JSON object; `none` on absent keys and
on non-objects. -/
def Json.getField : Json → String → Option Json
  | .obj fields, k => (fields.find? (fun p => p.1 == k)).map (fun p => p.2)
  | _, _ => none

/-- Model of `impl From<Option<Value>> for Value`: `None` becomes JSON `null`.
`JsonRpcResponse::success(request.id, ..)` goes through this conversion. -/
def Json.ofOption : Option Json → Json
  | none => .null
  | some v => v

/-- Helper for serde's `skip_serializing_if = "Option::is_none"`: an optional
field contributes its key/value pair only when present. -/
def optField (k : String) : Option Json → List (String × Json)
  | none => []
  | some v => [(k, v)]

/-- Like `List.isPrefixOf` on characters, written out (used by `strContains`). -/
def charsStart : List Char → List Char → Bool
  | _, [] => true
  | [], _ :: _ => false
  | c :: cs, d :: ds => c == d && charsStart cs ds

/-- Does the haystack contain the needle as a contiguous subsequence? -/
def charsContain : List Char → List Char → Bool
  | [], needle => needle.isEmpty
  | c :: cs, needle => charsStart (c :: cs) needle || charsContain cs needle

/-- Model of Rust's `str::contains` with a string pattern. -/
def strContains (s pat : String) : Bool :=
  charsContain s.toList pat.toList

/- ## protocol.rs : message types -/

/-- Rust `JsonRpcRequest` (protocol.rs).  `id` and `params` are `Option<Value>`. -/
structure JsonRpcRequest where
  jsonrpc : String
  id : Option Json
  method : String
  params : Option Json
deriving Repr

/-- Rust `JsonRpcError` (protocol.rs). -/
structure JsonRpcError where
  code : Int
  message : String
  data : Option Json
deriving Repr

/-- Rust `JsonRpcResponse` (protocol.rs).  NOTE: in the source, `result` and
`error` carry `skip_serializing_if = "Option::is_none"` but `id` does not. -/
structure JsonRpcResponse where
  jsonrpc : String
  id : Option Json
  result : Option Json
  error : Option JsonRpcError
deriving Repr

/-- Rust `Implementation` (protocol.rs). -/
structure Implementation where
  name : String
  version : String
deriving Repr

/-- Rust `SamplingCapability` (protocol.rs): an empty struct. -/
structure SamplingCapability where
deriving Repr

/-- Rust `ClientCapabilities` (protocol.rs).  `experimental` is a
`HashMap<String, Value>`, modelled as an association list. -/
structure ClientCapabilities where
  experimental : Option (List (String × Json)) := none
  sampling : Option SamplingCapability := none
deriving Repr

/-- Rust `LoggingCapability` (protocol.rs): an empty struct. -/
structure LoggingCapability where
deriving Repr

/-- Rust `PromptsCapability` (protocol.rs). -/
structure PromptsCapability where
  listChanged : Option Bool := none
deriving Repr

/-- Rust `ResourcesCapability` (protocol.rs). -/
structure ResourcesCapability where
  subscribe : Option Bool := none
  listChanged : Option Bool := none
deriving Repr

/-- Rust `ToolsCapability` (protocol.rs). -/
structure ToolsCapability where
  listChanged : Option Bool := none
deriving Repr

/-- Rust `ServerCapabilities` (protocol.rs). -/
structure ServerCapabilities where
  experimental : Option (List (String × Json)) := none
  logging : Option LoggingCapability := none
  prompts : Option PromptsCapability := none
  resources : Option ResourcesCapability := none
  tools : Option ToolsCapability := none
deriving Repr

/-- Rust `InitializeParams` (protocol.rs); wire keys `protocolVersion`,
`capabilities`, `clientInfo`. -/
structure InitializeParams where
  protocolVersion : String
  capabilities : ClientCapabilities
  clientInfo : Implementation
deriving Repr

/-- Rust `InitializeResult` (protocol.rs). -/
structure InitializeResult where
  protocolVersion : String
  capabilities : ServerCapabilities
  serverInfo : Implementation
deriving Repr

/-- Rust `ToolInputSchema` (protocol.rs). -/
structure ToolInputSchema where
  schemaType : String
  properties : Option (List (String × Json)) := none
  required : List String := []
  additionalProperties : Option Bool := none
deriving Repr

/-- Rust `ToolDefinition` (protocol.rs). -/
structure ToolDefinition where
  name : String
  description : String
  inputSchema : ToolInputSchema
deriving Repr

/-- Rust `ListToolsParams` (protocol.rs): an empty struct. -/
structure ListToolsParams where
deriving Repr

/-- Rust `ListToolsResult` (protocol.rs). -/
structure ListToolsResult where
  tools : List ToolDefinition
deriving Repr

/-- Rust `CallToolParams` (protocol.rs): `name` required, `arguments` an optional
`HashMap<String, Value>` (association list model). -/
structure CallToolParams where
  name : String
  arguments : Option (List (String × Json))
deriving Repr

/-- Rust `ResourceReference` (protocol.rs). -/
structure ResourceReference where
  uri : String
  text : Option String
deriving Repr

/-- Rust `ToolContent` (protocol.rs): `#[serde(tag = "type")]` tagged union with
variants renamed `text`, `image`, `resource`.  The `Resource` variant's
single field is named `resource` and holds a `ResourceReference`. -/
inductive ToolContent where
  | Text (text : String)
  | Image (data : String) (mimeType : String)
  | Resource (resource : ResourceReference)
deriving Repr

/-- Rust `CallToolResult` (protocol.rs): `content` plus optional `isError`
(`skip_serializing_if = "Option::is_none"`). -/
structure CallToolResult where
  content : List ToolContent
  isError : Option Bool
deriving Repr

/- ## protocol.rs : serde serialization (`serde_json::to_value`) -/

/-- Serialization of `JsonRpcError`: `data` skipped when `None`. -/
def JsonRpcError.toJson (e : JsonRpcError) : Json :=
  .obj ([("code", .num e.code), ("message", .str e.message)] ++
    optField "data" e.data)

/-- Serialization of `JsonRpcResponse`.  `result`/`error` are skipped when
`None`; `id` has no skip attribute, so `None` is emitted as `null`. -/
def JsonRpcResponse.toJson (r : JsonRpcResponse) : Json :=
  .obj ([("jsonrpc", .str r.jsonrpc), ("id", Json.ofOption r.id)] ++
    optField "result" r.result ++
    optField "error" (r.error.map JsonRpcError.toJson))

/-- Serialization of `Implementation`. -/
def Implementation.toJson (i : Implementation) : Json :=
  .obj [("name", .str i.name), ("version", .str i.version)]

/-- Serialization of `LoggingCapability`. -/
def LoggingCapability.toJson (_ : LoggingCapability) : Json := .obj []

/-- Serialization of `PromptsCapability`. -/
def PromptsCapability.toJson (c : PromptsCapability) : Json :=
  .obj (optField "listChanged" (c.listChanged.map .bool))

/-- Serialization of `ResourcesCapability`. -/
def ResourcesCapability.toJson (c : ResourcesCapability) : Json :=
  .obj (optField "subscribe" (c.subscribe.map .bool) ++
    optField "listChanged" (c.listChanged.map .bool))

/-- Serialization of `ToolsCapability`. -/
def ToolsCapability.toJson (c : ToolsCapability) : Json :=
  .obj (optField "listChanged" (c.listChanged.map .bool))

/-- Serialization of `ServerCapabilities`: every field optional and skipped
when `None`. -/
def ServerCapabilities.toJson (c : ServerCapabilities) : Json :=
  .obj (optField "experimental" (c.experimental.map .obj) ++
    optField "logging" (c.logging.map LoggingCapability.toJson) ++
    optField "prompts" (c.prompts.map PromptsCapability.toJson) ++
    optField "resources" (c.resources.map ResourcesCapability.toJson) ++
    optField "tools" (c.tools.map ToolsCapability.toJson))

/-- Serialization of `InitializeResult`. -/
def InitializeResult.toJson (r : InitializeResult) : Json :=
  .obj [("protocolVersion", .str r.protocolVersion),
    ("capabilities", r.capabilities.toJson),
    ("serverInfo", r.serverInfo.toJson)]

/-- Serialization of `ToolInputSchema`: `properties`/`additionalProperties`
skipped when `None`, `required` skipped when empty (`Vec::is_empty`). -/
def ToolInputSchema.toJson (s : ToolInputSchema) : Json :=
  .obj ([("type", .str s.schemaType)] ++
    optField "properties" (s.properties.map .obj) ++
    (if s.required.isEmpty then []
      else [("required", .arr (s.required.map .str))]) ++
    optField "additionalProperties" (s.additionalProperties.map .bool))

/-- Serialization of `ToolDefinition`. -/
def ToolDefinition.toJson (d : ToolDefinition) : Json :=
  .obj [("name", .str d.name), ("description", .str d.description),
    ("inputSchema", d.inputSchema.toJson)]

/-- Serialization of `ListToolsResult`. -/
def ListToolsResult.toJson (r : ListToolsResult) : Json :=
  .obj [("tools", .arr (r.tools.map ToolDefinition.toJson))]

/-- Serialization of `ResourceReference`: `text` skipped when `None`. -/
def ResourceReference.toJson (r : ResourceReference) : Json :=
  .obj ([("uri", .str r.uri)] ++ optField "text" (r.text.map .str))

/-- Serialization of `ToolContent` under `#[serde(tag = "type")]`: the
discriminant field `type` plus the variant's own fields at the same level.
The `Resource` variant's own field is `resource`, whose value is the nested
`ResourceReference` object. -/
def ToolContent.toJson : ToolContent → Json
  | .Text text => .obj [("type", .str "text"), ("text", .str text)]
  | .Image data mimeType =>
      .obj [("type", .str "image"), ("data", .str data),
        ("mimeType", .str mimeType)]
  | .Resource r => .obj [("type", .str "resource"), ("resource", r.toJson)]

/-- Serialization of `CallToolResult`: `isError` skipped when `None`. -/
def CallToolResult.toJson (r : CallToolResult) : Json :=
  .obj ([("content", .arr (r.content.map ToolContent.toJson))] ++
    optField "isError" (r.isError.map .bool))

/- ## protocol.rs : serde deserialization (`serde_json::from_value`) -/

/-- Parse a required string field, as serde does for a `String` struct
field.  (The exact serde error message text is not modelled; only the
success/failure outcome and the resulting value are.) -/
def parseReqStr (j : Json) (k : String) : Except String String :=
  match j.getField k with
  | some (.str s) => .ok s
  | some _ => .error ("invalid type for field " ++ k)
  | none => .error ("missing field " ++ k)

/-- Parse a required field with the given sub-parser (serde: a struct field
with no `default` attribute must be present). -/
def parseReqField (j : Json) (k : String) (p : Json → Except String α) :
    Except String α :=
  match j.getField k with
  | some v => p v
  | none => .error ("missing field " ++ k)

/-- Parse an `Option<T>` struct field: absent or `null` gives `none`. -/
def parseOptField (j : Json) (k : String) (p : Json → Except String α) :
    Except String (Option α) :=
  match j.getField k with
  | none => .ok none
  | some .null => .ok none
  | some v => (p v).map some

/-- serde deserialization of a `HashMap<String, Value>`: any JSON object. -/
def parseStrMap (j : Json) : Except String (List (String × Json)) :=
  match j with
  | .obj fields => .ok fields
  | _ => .error "expected a map"

/-- serde deserialization of `JsonRpcRequest`: `jsonrpc` and `method` are
required strings; `id` and `params` are `Option<Value>` (absent or `null`
gives `None`); unknown fields are ignored (serde default). -/
def JsonRpcRequest.deserialize (j : Json) : Except String JsonRpcRequest :=
  match j with
  | .obj _ => do
    let ver ← parseReqStr j "jsonrpc"
    let m ← parseReqStr j "method"
    let id := match j.getField "id" with
      | none => none
      | some .null => none
      | some v => some v
    let params := match j.getField "params" with
      | none => none
      | some .null => none
      | some v => some v
    .ok ⟨ver, id, m, params⟩
  | _ => .error "expected struct JsonRpcRequest"

/-- serde deserialization of `SamplingCapability` (empty struct: any
object). -/
def SamplingCapability.deserialize (j : Json) :
    Except String SamplingCapability :=
  match j with
  | .obj _ => .ok ⟨⟩
  | _ => .error "expected struct SamplingCapability"

/-- serde deserialization of `ClientCapabilities` (all fields optional). -/
def ClientCapabilities.deserialize (j : Json) :
    Except String ClientCapabilities :=
  match j with
  | .obj _ => do
    let ex ← parseOptField j "experimental" parseStrMap
    let sa ← parseOptField j "sampling" SamplingCapability.deserialize
    .ok ⟨ex, sa⟩
  | _ => .error "expected struct ClientCapabilities"

/-- serde deserialization of `Implementation`: `name` and `version`
required strings. -/
def Implementation.deserialize (j : Json) : Except String Implementation :=
  match j with
  | .obj _ => do
    let n ← parseReqStr j "name"
    let v ← parseReqStr j "version"
    .ok ⟨n, v⟩
  | _ => .error "expected struct Implementation"

/-- serde deserialization of `InitializeParams`: `protocolVersion` (string),
`capabilities` and `clientInfo` are all required. -/
def InitializeParams.deserialize (j : Json) : Except String InitializeParams :=
  match j with
  | .obj _ => do
    let pv ← parseReqStr j "protocolVersion"
    let caps ← parseReqField j "capabilities" ClientCapabilities.deserialize
    let ci ← parseReqField j "clientInfo" Implementation.deserialize
    .ok ⟨pv, caps, ci⟩
  | _ => .error "expected struct InitializeParams"

/-- serde deserialization of `ListToolsParams` (empty struct: any object,
unknown fields ignored). -/
def ListToolsParams.deserialize (j : Json) : Except String ListToolsParams :=
  match j with
  | .obj _ => .ok ⟨⟩
  | _ => .error "expected struct ListToolsParams"

/-- serde deserialization of `CallToolParams`: `name` is a required string;
`arguments` is `Option<HashMap<String, Value>>` (absent or `null` gives
`None`). -/
def CallToolParams.deserialize (j : Json) : Except String CallToolParams :=
  match j with
  | .obj _ => do
    let n ← parseReqStr j "name"
    let args ← parseOptField j "arguments" parseStrMap
    .ok ⟨n, args⟩
  | _ => .error "expected struct CallToolParams"

/- ## error.rs : McpError -/

/-- Rust `McpError` (error.rs). -/
inductive McpError where
  | ParseError (message : String)
  | InvalidRequest (message : String)
  | MethodNotFound (method : String)
  | InvalidParams (message : String)
  | InternalError (message : String)
  | ToolNotFound (toolName : String)
  | ToolExecutionError (toolName : String) (message : String)
  | TransportError (message : String)
  | SerializationError (message : String)
deriving Repr, DecidableEq

/-- Rust `McpError::to_json_rpc_code` (error.rs). -/
def McpError.toJsonRpcCode : McpError → Int
  | .ParseError _ => -32700
  | .InvalidRequest _ => -32600
  | .MethodNotFound _ => -32601
  | .InvalidParams _ => -32602
  | .InternalError _ => -32603
  | .ToolNotFound _ => -32000
  | .ToolExecutionError _ _ => -32001
  | .TransportError _ => -32002
  | .SerializationError _ => -32003

/-- The `Display` rendering produced by the `#[error("...")] ` attributes on
`McpError` (thiserror); this is what `e.to_string()` yields. -/
def McpError.toMessage : McpError → String
  | .ParseError m => "Parse error: " ++ m
  | .InvalidRequest m => "Invalid request: " ++ m
  | .MethodNotFound m => "Method not found: " ++ m
  | .InvalidParams m => "Invalid params: " ++ m
  | .InternalError m => "Internal error: " ++ m
  | .ToolNotFound t => "Tool not found: " ++ t
  | .ToolExecutionError t m => "Tool execution failed: " ++ t ++ " - " ++ m
  | .TransportError m => "Transport error: " ++ m
  | .SerializationError m => "Serialization error: " ++ m

/-- Rust `JsonRpcError::new` (protocol.rs). -/
def JsonRpcError.new (code : Int) (message : String) : JsonRpcError :=
  ⟨code, message, none⟩

/-- Rust `JsonRpcResponse::success` (protocol.rs).  In the source the id argument
is `impl Into<Value>` and is invoked with `request.id : Option<Value>`,
whose conversion maps `None` to `Value::Null`; callers below pass
`Json.ofOption request.id`.  `serde_json::to_value` cannot fail on any
payload type this server serializes, so the model is total. -/
def JsonRpcResponse.success (id : Json) (result : Json) : JsonRpcResponse :=
  ⟨"2.0", some id, some result, none⟩

/-- Rust `JsonRpcResponse::error` (protocol.rs). -/
def JsonRpcResponse.errorResponse (id : Option Json) (error : JsonRpcError) :
    JsonRpcResponse :=
  ⟨"2.0", id, none, some error⟩

/- ## registry.rs : tools -/

/-- Rust `ToolInput` (registry.rs). -/
structure ToolInput where
  name : String
  arguments : List (String × Json)

/-- Rust `ToolResult` (registry.rs). -/
structure ToolResult where
  content : List ToolContent
  isError : Bool
deriving Repr

/-- Rust `ToolResult::into_call_result` (registry.rs): `is_error` becomes
`Some(true)` when true and `None` (omitted on the wire) when false. -/
def ToolResult.intoCallResult (r : ToolResult) : CallToolResult :=
  ⟨r.content, if r.isError then some true else none⟩

/-- Rust `Tool` (registry.rs): a definition plus an asynchronous handler,
modelled as a function from input to result-or-error. -/
structure Tool where
  definition : ToolDefinition
  handler : ToolInput → Except McpError ToolResult

/-- Rust `ToolRegistry` (registry.rs): a map from name to tool, modelled as an
association list. -/
structure ToolRegistry where
  tools : List (String × Tool)

/-- Rust `ToolRegistry::get_tool` (registry.rs). -/
def ToolRegistry.getTool (reg : ToolRegistry) (name : String) : Option Tool :=
  (reg.tools.find? (fun p => p.1 == name)).map (fun p => p.2)

/-- Rust `ToolRegistry::list_tools` (registry.rs).  (HashMap iteration order is
arbitrary in the source; the model uses list order.) -/
def ToolRegistry.listTools (reg : ToolRegistry) : List ToolDefinition :=
  reg.tools.map (fun p => p.2.definition)

/-- Rust `ToolRegistry::execute_tool` (registry.rs): look up by name, failing
with `ToolNotFound(name)` when absent; otherwise invoke the handler
(`Tool::execute` adds only logging and timing) and wrap a handler error as
`ToolExecutionError(name, e.to_string())`. -/
def ToolRegistry.executeTool (reg : ToolRegistry) (name : String)
    (arguments : List (String × Json)) : Except McpError ToolResult :=
  match reg.getTool name with
  | none => .error (.ToolNotFound name)
  | some tool =>
    match tool.handler ⟨name, arguments⟩ with
    | .ok result => .ok result
    | .error e => .error (.ToolExecutionError name e.toMessage)

/- ## server.rs : state machine and dispatch -/

/-- Rust `ServerState` (server.rs). -/
inductive ServerState where
  | Created
  | Initialized
  | Shutdown
deriving Repr, DecidableEq

/-- Rust `Server` (server.rs). -/
structure Server where
  serverInfo : Implementation
  state : ServerState
  toolRegistry : ToolRegistry
  capabilities : ServerCapabilities

/-- Rust `Server::new` (server.rs): state `Created`, empty registry, capabilities
with `tools: Some(ToolsCapability::default())` and all other fields `None`. -/
def Server.new (name version : String) : Server :=
  ⟨⟨name, version⟩, .Created, ⟨[]⟩, { tools := some {} }⟩

/-- Rust `Server::handle_initialize` (server.rs).  Returns the outcome together
with the (possibly updated) server.  A failing `serde_json::from_value` is
converted by `From<serde_json::Error> for McpError` into
`SerializationError`. -/
def Server.handleInitializeReq (s : Server) (request : JsonRpcRequest) :
    Except McpError JsonRpcResponse × Server :=
  if s.state ≠ ServerState.Created then
    (.error (.InvalidRequest "Server already initialized"), s)
  else
    match request.params with
    | none => (.error (.InvalidParams "Missing initialization parameters"), s)
    | some pj =>
      match InitializeParams.deserialize pj with
      | .error msg => (.error (.SerializationError msg), s)
      | .ok params =>
        if params.protocolVersion = "" then
          (.error (.InvalidParams "Protocol version is required"), s)
        else
          (.ok (JsonRpcResponse.success (Json.ofOption request.id)
              (InitializeResult.toJson
                ⟨"2024-11-05", s.capabilities, s.serverInfo⟩)),
            { s with state := ServerState.Initialized })

/-- Rust `Server::handle_list_tools` (server.rs). -/
def Server.handleListTools (s : Server) (request : JsonRpcRequest) :
    Except McpError JsonRpcResponse × Server :=
  if s.state ≠ ServerState.Initialized then
    (.error (.InvalidRequest "Server not initialized"), s)
  else
    match (match request.params with
      | some pj => ListToolsParams.deserialize pj
      | none => .ok ⟨⟩) with
    | .error msg => (.error (.SerializationError msg), s)
    | .ok _ =>
      (.ok (JsonRpcResponse.success (Json.ofOption request.id)
        (ListToolsResult.toJson ⟨s.toolRegistry.listTools⟩)), s)

/-- Rust `Server::handle_call_tool` (server.rs): absent `params` is
`InvalidParams`; a `params` value that fails to deserialize as
`CallToolParams` becomes `SerializationError` (via `From<serde_json::Error>`);
an absent `arguments` mapping defaults to empty (`unwrap_or_default`). -/
def Server.handleCallTool (s : Server) (request : JsonRpcRequest) :
    Except McpError JsonRpcResponse × Server :=
  if s.state ≠ ServerState.Initialized then
    (.error (.InvalidRequest "Server not initialized"), s)
  else
    match request.params with
    | none => (.error (.InvalidParams "Missing tool call parameters"), s)
    | some pj =>
      match CallToolParams.deserialize pj with
      | .error msg => (.error (.SerializationError msg), s)
      | .ok params =>
        match s.toolRegistry.executeTool params.name
          (params.arguments.getD []) with
        | .error e => (.error e, s)
        | .ok toolResult =>
          (.ok (JsonRpcResponse.success (Json.ofOption request.id)
            toolResult.intoCallResult.toJson), s)

/-- Rust `Server::process_request` (server.rs): dispatch on the method string. -/
def Server.processRequest (s : Server) (request : JsonRpcRequest) :
    Except McpError JsonRpcResponse × Server :=
  if request.method = "initialize" then s.handleInitializeReq request
  else if request.method = "tools/list" then s.handleListTools request
  else if request.method = "tools/call" then s.handleCallTool request
  else (.error (.MethodNotFound request.method), s)

/-- Rust `Server::create_error_response` (server.rs). -/
def createErrorResponse (requestId : Option Json) (e : McpError) :
    JsonRpcResponse :=
  JsonRpcResponse.errorResponse requestId
    (JsonRpcError.new e.toJsonRpcCode e.toMessage)

/-- Rust `Server::handle_next_request` (server.rs): a read failure is propagated
by `?` before any response is produced; once a request has been read, a
processing failure is converted to an error response with the request's id. -/
def Server.handleNextRequest (s : Server)
    (readResult : Except McpError JsonRpcRequest) :
    Except McpError (Server × JsonRpcResponse) :=
  match readResult with
  | .error e => .error e
  | .ok request =>
    match s.processRequest request with
    | (.ok response, s2) => .ok (s2, response)
    | (.error e, s2) => .ok (s2, createErrorResponse request.id e)

/- ## transport.rs : stdio and channel transports -/

/-- One line read from standard input, modelled after Rust's `trim`:
`trimmed` is the line's text with surrounding whitespace removed, and
`parsed` is the result of JSON tokenization of that text (`none` when the
text is not valid JSON).  JSON tokenization itself is not modelled. -/
structure RawLine where
  trimmed : String
  parsed : Option Json

/-- The error `StdioTransport::read_message` returns on zero bytes read. -/
def stdioEofError : McpError := .TransportError "EOF reached"

/-- The error `ChannelTransport::read_message` returns when the inbound
request channel is closed. -/
def channelClosedError : McpError := .TransportError "Request channel closed"

/-- Rust `StdioTransport::read_message` (transport.rs) over the remaining input
lines: zero bytes read is the EOF transport error; a blank line (empty after
trimming) triggers `return self.read_message().await` — a recursive retry;
a non-blank line is parsed as `JsonRpcRequest`, a failure becoming a
`ParseError`.  Returns the outcome and the lines not yet consumed.  (The
serde error text interpolated into the `ParseError` message is not
modelled.) -/
def readMessage : List RawLine → Except McpError JsonRpcRequest × List RawLine
  | [] => (.error stdioEofError, [])
  | l :: rest =>
    if l.trimmed = "" then readMessage rest
    else
      match l.parsed with
      | none =>
        (.error (.ParseError "Invalid JSON-RPC request: invalid JSON"), rest)
      | some j =>
        match JsonRpcRequest.deserialize j with
        | .ok request => (.ok request, rest)
        | .error msg =>
          (.error (.ParseError ("Invalid JSON-RPC request: " ++ msg)), rest)

/-- The nesting depth of the self-calls a single `read_message` invocation
performs on the given input: each blank line adds one level (the source
comments the blank-line branch with "Recursively try again"). -/
def readMessageDepth : List RawLine → Nat
  | [] => 1
  | l :: rest => if l.trimmed = "" then 1 + readMessageDepth rest else 1

/-- The sequence of outcomes successive `read_message` calls deliver on the
given input: blank lines contribute no outcome (they are consumed by the
retry inside a single call) and exhausted input delivers the EOF error. -/
def readAll : List RawLine → List (Except McpError JsonRpcRequest)
  | [] => [.error stdioEofError]
  | l :: rest =>
    if l.trimmed = "" then readAll rest
    else (readMessage (l :: rest)).1 :: readAll rest

/-- How `Server::run_with_transport` leaves its loop. -/
inductive ExitKind where
  /-- The EOF check matched: "Client disconnected", informational. -/
  | cleanDisconnect
  /-- The error-logged path: "Transport error, shutting down server". -/
  | transportFailure
  /-- Model artifact: the scripted input was exhausted with no transport
  signal (the real loop would block reading). -/
  | inputExhausted
deriving Repr, DecidableEq

/-- The error handling of `Server::run_with_transport` (server.rs): a
`TransportError` whose message contains `"EOF reached"` breaks the loop as a
clean client disconnect; any other `TransportError` logs and breaks as a
transport failure; every other error kind is logged and the loop continues
(`none`). -/
def classifyLoopError (e : McpError) : Option ExitKind :=
  match e with
  | .TransportError message =>
    if strContains message "EOF reached" then some .cleanDisconnect
    else some .transportFailure
  | _ => none

/-- Rust `Server::run_with_transport` (server.rs) over a script of read outcomes:
each successful `handle_next_request` writes one response and continues; on
an error the loop either breaks (per `classifyLoopError`, setting
`state = Shutdown` as the code does after the loop) or continues without
writing anything.  Returns the final server, the responses written in
order, and how the loop exited. -/
def Server.runLoop (s : Server) :
    List (Except McpError JsonRpcRequest) →
    Server × List JsonRpcResponse × ExitKind
  | [] => (s, [], .inputExhausted)
  | ev :: rest =>
    match s.handleNextRequest ev with
    | .ok (s2, response) =>
      let out := s2.runLoop rest
      (out.1, response :: out.2.1, out.2.2)
    | .error e =>
      match classifyLoopError e with
      | some k => ({ s with state := ServerState.Shutdown }, [], k)
      | none => s.runLoop rest

/-- Rust `Server::run_stdio` (server.rs): the dispatch loop driven by the stdio
transport's `read_message` over the given input lines. -/
def Server.runStdio (s : Server) (lines : List RawLine) :
    Server × List JsonRpcResponse × ExitKind :=
  s.runLoop (readAll lines)

/- ## Sample values used by witnesses and counterexamples -/

/-- The server `main.rs` constructs (before tool registration). -/
def serverSample : Server := Server.new "misp-mcp-server" "0.1.0"

/-- The value `serverSample` after a successful initialization handshake. -/
def serverInitSample : Server :=
  { serverSample with state := ServerState.Initialized }

/-- A well-formed `initialize` params object. -/
def initParamsJsonSample : Json :=
  .obj [("protocolVersion", .str "2024-11-05"),
    ("capabilities", .obj []),
    ("clientInfo", .obj [("name", .str "test-client"),
      ("version", .str "1.0")])]

/-- A tool definition as `Tool::new` builds it (registry.rs). -/
def echoToolDefSample : ToolDefinition :=
  ⟨"echo", "Echo tool", ⟨"object", some [], [], some true⟩⟩

/-- A registered tool whose handler always fails. -/
def failingToolSample : Tool :=
  ⟨echoToolDefSample, fun _ => .error (.InternalError "boom")⟩

/-- A registry holding only `failingToolSample` under the name "echo". -/
def regSample : ToolRegistry := ⟨[("echo", failingToolSample)]⟩

/-- A non-empty input line whose text is not valid JSON. -/
def lineNotJson : RawLine := ⟨"this is not json", none⟩

/-- A `tools/call` params object lacking the required `name` field. -/
def callNoNameParams : Json := .obj [("arguments", .obj [])]

/-- A blank input line (empty after trimming). -/
def blankLineSample : RawLine := ⟨"", none⟩

/-- A valid `tools/list` request line. -/
def validLineSample : RawLine :=
  ⟨"\x7b\x22jsonrpc\x22:\x222.0\x22,\x22id\x22:1,\x22method\x22:\x22tools/list\x22\x7d",
    some (.obj [("jsonrpc", .str "2.0"), ("id", .num 1),
      ("method", .str "tools/list")])⟩

/- ## Theorems -/

/-- Every `Ok` outcome of `handle_initialize` was built by
`JsonRpcResponse::success` applied to the request's id. -/
theorem handleInitializeReq_ok_shape (s : Server) (req : JsonRpcRequest)
    (resp : JsonRpcResponse) (s' : Server)
    (h : s.handleInitializeReq req = (.ok resp, s')) :
    ∃ r, resp = JsonRpcResponse.success (Json.ofOption req.id) r := by
  unfold Server.handleInitializeReq at h
  split at h
  · simp at h
  · split at h
    · simp at h
    · split at h
      · simp at h
      · split at h
        · simp at h
        · simp only [Prod.mk.injEq] at h
          exact ⟨_, (Except.ok.inj h.1).symm⟩

/-- Every `Ok` outcome of `handle_list_tools` was built by
`JsonRpcResponse::success` applied to the request's id. -/
theorem handleListTools_ok_shape (s : Server) (req : JsonRpcRequest)
    (resp : JsonRpcResponse) (s' : Server)
    (h : s.handleListTools req = (.ok resp, s')) :
    ∃ r, resp = JsonRpcResponse.success (Json.ofOption req.id) r := by
  unfold Server.handleListTools at h
  split at h
  · simp at h
  · split at h
    · simp at h
    · simp only [Prod.mk.injEq] at h
      exact ⟨_, (Except.ok.inj h.1).symm⟩

/-- Every `Ok` outcome of `handle_call_tool` was built by
`JsonRpcResponse::success` applied to the request's id. -/
theorem handleCallTool_ok_shape (s : Server) (req : JsonRpcRequest)
    (resp : JsonRpcResponse) (s' : Server)
    (h : s.handleCallTool req = (.ok resp, s')) :
    ∃ r, resp = JsonRpcResponse.success (Json.ofOption req.id) r := by
  unfold Server.handleCallTool at h
  split at h
  · simp at h
  · split at h
    · simp at h
    · split at h
      · simp at h
      · split at h
        · simp at h
        · simp only [Prod.mk.injEq] at h
          exact ⟨_, (Except.ok.inj h.1).symm⟩

/-- Every `Ok` outcome of `process_request` was built by
`JsonRpcResponse::success` applied to the request's id (converted through
`From<Option<Value>>`). -/
theorem processRequest_ok_shape (s : Server) (req : JsonRpcRequest)
    (resp : JsonRpcResponse) (s' : Server)
    (h : s.processRequest req = (.ok resp, s')) :
    ∃ r, resp = JsonRpcResponse.success (Json.ofOption req.id) r := by
  unfold Server.processRequest at h
  split_ifs at h
  · exact handleInitializeReq_ok_shape s req resp s' h
  · exact handleListTools_ok_shape s req resp s' h
  · exact handleCallTool_ok_shape s req resp s' h
  · simp at h

/-- C1: for every request processed while the server state is `Created`, the
methods `tools/list` and `tools/call` yield an InvalidRequest error response
with code -32600 regardless of otherwise-valid parameters; and for every
request processed while the state is `Initialized`, the method `initialize`
yields an InvalidRequest error response with code -32600. -/
theorem c1_lifecycle_gating (s : Server) (req : JsonRpcRequest)
    (h : (s.state = ServerState.Created ∧
        (req.method = "tools/list" ∨ req.method = "tools/call")) ∨
      (s.state = ServerState.Initialized ∧ req.method = "initialize")) :
    ∃ resp, s.handleNextRequest (.ok req) = .ok (s, resp) ∧
      resp.result = none ∧
      ∃ err, resp.error = some err ∧ err.code = -32600 := by
  rcases h with ⟨hst, hm | hm⟩ | ⟨hst, hm⟩
  · refine ⟨createErrorResponse req.id
        (.InvalidRequest "Server not initialized"),
      ?_, rfl, JsonRpcError.new
        (McpError.toJsonRpcCode (.InvalidRequest "Server not initialized"))
        (McpError.toMessage (.InvalidRequest "Server not initialized")),
      rfl, rfl⟩
    simp [Server.handleNextRequest, Server.processRequest,
      Server.handleListTools, hm, hst]
  · refine ⟨createErrorResponse req.id
        (.InvalidRequest "Server not initialized"),
      ?_, rfl, JsonRpcError.new
        (McpError.toJsonRpcCode (.InvalidRequest "Server not initialized"))
        (McpError.toMessage (.InvalidRequest "Server not initialized")),
      rfl, rfl⟩
    simp [Server.handleNextRequest, Server.processRequest,
      Server.handleCallTool, hm, hst]
  · refine ⟨createErrorResponse req.id
        (.InvalidRequest "Server already initialized"),
      ?_, rfl, JsonRpcError.new
        (McpError.toJsonRpcCode (.InvalidRequest "Server already initialized"))
        (McpError.toMessage (.InvalidRequest "Server already initialized")),
      rfl, rfl⟩
    simp [Server.handleNextRequest, Server.processRequest,
      Server.handleInitializeReq, hm, hst]

/-- C1 witness: a `tools/list` request with valid (absent) params against
the freshly created server yields the -32600 error response. -/
theorem c1_lifecycle_gating_witness :
    ∃ resp, serverSample.handleNextRequest
        (.ok ⟨"2.0", some (.num 1), "tools/list", none⟩) =
        .ok (serverSample, resp) ∧
      resp.result = none ∧
      ∃ err, resp.error = some err ∧ err.code = -32600 :=
  c1_lifecycle_gating serverSample ⟨"2.0", some (.num 1), "tools/list", none⟩
    (Or.inl ⟨rfl, Or.inl rfl⟩)

/-- C3: every response the server produces for a successfully read request
has exactly one of `result`/`error` set — never both, never neither — and
carries the request's id: verbatim whenever the request's id is present,
and as the same wire value (`None` serializing as `null`) in general. -/
theorem c3_response_id_and_exclusivity (s : Server) (req : JsonRpcRequest)
    (s' : Server) (resp : JsonRpcResponse)
    (h : s.handleNextRequest (.ok req) = .ok (s', resp)) :
    ((resp.result.isSome ∧ resp.error = none) ∨
      (resp.result = none ∧ resp.error.isSome))
    ∧ Json.ofOption resp.id = Json.ofOption req.id
    ∧ (∀ v, req.id = some v → resp.id = some v) := by
  simp only [Server.handleNextRequest] at h
  rcases hpr : s.processRequest req with ⟨outcome, s2⟩
  rw [hpr] at h
  cases outcome with
  | ok response =>
    simp only [Except.ok.injEq, Prod.mk.injEq] at h
    obtain ⟨rfl, rfl⟩ := h
    obtain ⟨r, rfl⟩ := processRequest_ok_shape s req response s2 hpr
    refine ⟨Or.inl ⟨rfl, rfl⟩, rfl, ?_⟩
    intro v hv
    simp [JsonRpcResponse.success, hv, Json.ofOption]
  | error e =>
    simp only [Except.ok.injEq, Prod.mk.injEq] at h
    obtain ⟨rfl, rfl⟩ := h
    exact ⟨Or.inr ⟨rfl, rfl⟩, rfl, fun v hv => hv ▸ rfl⟩

/-- C3 witness: the error response to a premature `tools/list` request with
string id "abc" has only `error` set and carries the same id. -/
theorem c3_response_id_and_exclusivity_witness :
    (((createErrorResponse (some (.str "abc"))
        (.InvalidRequest "Server not initialized")).result.isSome ∧
      (createErrorResponse (some (.str "abc"))
        (.InvalidRequest "Server not initialized")).error = none) ∨
    ((createErrorResponse (some (.str "abc"))
        (.InvalidRequest "Server not initialized")).result = none ∧
      (createErrorResponse (some (.str "abc"))
        (.InvalidRequest "Server not initialized")).error.isSome))
    ∧ (createErrorResponse (some (.str "abc"))
        (.InvalidRequest "Server not initialized")).id = some (.str "abc") := by
  have h := c3_response_id_and_exclusivity serverSample
    ⟨"2.0", some (.str "abc"), "tools/list", none⟩ serverSample
    (createErrorResponse (some (.str "abc"))
      (.InvalidRequest "Server not initialized")) rfl
  exact ⟨h.1, h.2.2 (.str "abc") rfl⟩

/-- C4: for every `initialize` request processed in state `Created`: absent
params yield InvalidParams; params parsing with an empty protocol-version
string yield InvalidParams; params parsing with a non-empty version move the
state to `Initialized` and the success result carries the fixed protocol
version "2024-11-05" (never the client's requested one), the configured
capabilities and the configured serverInfo. -/
theorem c4_initialize_validation (s : Server) (req : JsonRpcRequest)
    (hst : s.state = ServerState.Created) (hm : req.method = "initialize") :
    (req.params = none →
      s.processRequest req =
        (.error (.InvalidParams "Missing initialization parameters"), s))
    ∧ (∀ pj p, req.params = some pj →
        InitializeParams.deserialize pj = .ok p →
        (p.protocolVersion = "" →
          s.processRequest req =
            (.error (.InvalidParams "Protocol version is required"), s))
        ∧ (p.protocolVersion ≠ "" →
          s.processRequest req =
            (.ok (JsonRpcResponse.success (Json.ofOption req.id)
              (InitializeResult.toJson
                ⟨"2024-11-05", s.capabilities, s.serverInfo⟩)),
              { s with state := ServerState.Initialized }))) := by
  constructor
  · intro hp
    simp [Server.processRequest, Server.handleInitializeReq, hm, hst, hp]
  · intro pj p hp hd
    constructor
    · intro hv
      simp [Server.processRequest, Server.handleInitializeReq, hm, hst, hp,
        hd, hv]
    · intro hv
      simp [Server.processRequest, Server.handleInitializeReq, hm, hst, hp,
        hd, hv]

/-- C4 witness: the missing-params error and a successful handshake for the
sample server. -/
theorem c4_initialize_validation_witness :
    (serverSample.processRequest ⟨"2.0", some (.num 1), "initialize", none⟩ =
      (.error (.InvalidParams "Missing initialization parameters"),
        serverSample))
    ∧ (serverSample.processRequest
        ⟨"2.0", some (.num 1), "initialize", some initParamsJsonSample⟩ =
      (.ok (JsonRpcResponse.success (.num 1)
        (InitializeResult.toJson
          ⟨"2024-11-05", serverSample.capabilities, serverSample.serverInfo⟩)),
        serverInitSample)) := by
  constructor
  · exact (c4_initialize_validation serverSample
      ⟨"2.0", some (.num 1), "initialize", none⟩ rfl rfl).1 rfl
  · exact ((c4_initialize_validation serverSample
      ⟨"2.0", some (.num 1), "initialize", some initParamsJsonSample⟩
      rfl rfl).2 initParamsJsonSample
      ⟨"2024-11-05", ⟨none, none⟩, ⟨"test-client", "1.0"⟩⟩
      rfl rfl).2 (by decide)

/-- C6: for every name not present in the registry, `execute_tool` fails
with `ToolNotFound` carrying that name (code -32000) — the outcome is the
same whatever the registered handlers do, so no handler is invoked — and
whenever a looked-up tool's handler fails, `execute_tool` fails with
`ToolExecutionError` carrying the tool name and only the textual rendering
of the underlying error. -/
theorem c6_execute_tool_errors (reg : ToolRegistry) (name : String)
    (arguments : List (String × Json)) :
    (reg.getTool name = none →
      reg.executeTool name arguments = .error (.ToolNotFound name) ∧
      (McpError.ToolNotFound name).toJsonRpcCode = -32000)
    ∧ (∀ tool e, reg.getTool name = some tool →
        tool.handler ⟨name, arguments⟩ = .error e →
        reg.executeTool name arguments =
          .error (.ToolExecutionError name e.toMessage)) := by
  constructor
  · intro h
    refine ⟨?_, rfl⟩
    unfold ToolRegistry.executeTool
    rw [h]
  · intro tool e h1 h2
    unfold ToolRegistry.executeTool
    rw [h1]
    simp [h2]

/-- C6 witness: an unknown name and a failing handler in `regSample`. -/
theorem c6_execute_tool_errors_witness :
    (regSample.executeTool "missing" [] = .error (.ToolNotFound "missing"))
    ∧ (regSample.executeTool "echo" [] =
        .error (.ToolExecutionError "echo" "Internal error: boom")) :=
  ⟨((c6_execute_tool_errors regSample "missing" []).1 rfl).1,
    (c6_execute_tool_errors regSample "echo" []).2 failingToolSample
      (.InternalError "boom") rfl rfl⟩

/-- C2 counterexample: the claim says a non-empty unparseable line produces
exactly one error Response; running the server on the single line
"this is not json" produces zero responses (the parse error is only logged),
and the loop continues to the EOF that follows. -/
theorem c2_parse_error_counterexample :
    (serverSample.runStdio [lineNotJson]).2.1 = []
    ∧ (serverSample.runStdio [lineNotJson]).2.2 = ExitKind.cleanDisconnect :=
  ⟨rfl, rfl⟩

/-- C2 (amended): a non-empty input line that fails to parse as the Request
envelope produces no Response at all — `handle_next_request` propagates the
`ParseError` before any response is written — and the dispatch loop
continues to the next request exactly as if the line had not been there. -/
theorem c2_malformed_line_no_response (s : Server) (l : RawLine)
    (rest : List RawLine) (m : String) (hne : l.trimmed ≠ "")
    (hfail : (readMessage (l :: rest)).1 = .error (.ParseError m)) :
    s.runStdio (l :: rest) = s.runStdio rest := by
  unfold Server.runStdio
  have hra : readAll (l :: rest) =
      (readMessage (l :: rest)).1 :: readAll rest := by
    simp only [readAll]
    rw [if_neg hne]
  rw [hra, hfail]
  rw [Server.runLoop]
  simp [Server.handleNextRequest, classifyLoopError]

/-- C2 witness: dropping the malformed line from the input leaves the whole
run unchanged. -/
theorem c2_malformed_line_no_response_witness :
    serverSample.runStdio [lineNotJson] = serverSample.runStdio [] :=
  c2_malformed_line_no_response serverSample lineNotJson []
    "Invalid JSON-RPC request: invalid JSON" (by decide) rfl

/-- C5 counterexample: the claim says `tools/call` params lacking the
required `name` field yield InvalidParams (code -32602); the code routes the
failed `CallToolParams` deserialization through `From<serde_json::Error>`
and yields a SerializationError with code -32003 instead. -/
theorem c5_missing_name_counterexample :
    (serverInitSample.processRequest
      ⟨"2.0", some (.num 2), "tools/call", some callNoNameParams⟩).1 =
        .error (.SerializationError "missing field name")
    ∧ (McpError.SerializationError "missing field name").toJsonRpcCode = -32003
    ∧ ¬ ((-32003 : Int) = -32602) := ⟨rfl, rfl, by decide⟩

/-- C5 (amended): for every `tools/call` request processed in state
`Initialized`: absent params yield InvalidParams (code -32602); params that
fail to deserialize as `CallToolParams` — in particular params lacking
`name` — yield a SerializationError (code -32003), not InvalidParams; and an
absent `arguments` mapping defaults to the empty mapping before the registry
is invoked. -/
theorem c5_call_tool_params (s : Server) (req : JsonRpcRequest)
    (hst : s.state = ServerState.Initialized)
    (hm : req.method = "tools/call") :
    (req.params = none →
      s.processRequest req =
        (.error (.InvalidParams "Missing tool call parameters"), s)
      ∧ (McpError.InvalidParams
          "Missing tool call parameters").toJsonRpcCode = -32602)
    ∧ (∀ pj msg, req.params = some pj →
        CallToolParams.deserialize pj = .error msg →
        s.processRequest req = (.error (.SerializationError msg), s)
        ∧ (McpError.SerializationError msg).toJsonRpcCode = -32003)
    ∧ (∀ pj p, req.params = some pj →
        CallToolParams.deserialize pj = .ok p → p.arguments = none →
        s.processRequest req =
          ((s.toolRegistry.executeTool p.name []).map
            (fun tr => JsonRpcResponse.success (Json.ofOption req.id)
              tr.intoCallResult.toJson), s)) := by
  refine ⟨?_, ?_, ?_⟩
  · intro hp
    refine ⟨?_, rfl⟩
    simp [Server.processRequest, Server.handleCallTool, hm, hst, hp]
  · intro pj msg hp hd
    refine ⟨?_, rfl⟩
    simp [Server.processRequest, Server.handleCallTool, hm, hst, hp, hd]
  · intro pj p hp hd hargs
    have h1 : s.processRequest req = s.handleCallTool req := by
      unfold Server.processRequest
      rw [if_neg (by rw [hm]; decide), if_neg (by rw [hm]; decide),
        if_pos hm]
    rw [h1]
    unfold Server.handleCallTool
    rw [if_neg (by rw [hst]; decide), hp]
    simp only [hd, hargs, Option.getD]
    cases hex : s.toolRegistry.executeTool p.name [] <;>
      simp [hex, Except.map]

/-- C5 witness: the missing-params error and the empty-arguments default on
the initialized sample server. -/
theorem c5_call_tool_params_witness :
    (serverInitSample.processRequest
        ⟨"2.0", some (.num 1), "tools/call", none⟩ =
      (.error (.InvalidParams "Missing tool call parameters"),
        serverInitSample))
    ∧ (serverInitSample.processRequest
        ⟨"2.0", some (.num 3), "tools/call",
          some (.obj [("name", .str "echo")])⟩ =
      ((serverInitSample.toolRegistry.executeTool "echo" []).map
        (fun tr => JsonRpcResponse.success (.num 3)
          tr.intoCallResult.toJson), serverInitSample)) := by
  constructor
  · exact ((c5_call_tool_params serverInitSample
      ⟨"2.0", some (.num 1), "tools/call", none⟩ rfl rfl).1 rfl).1
  · exact (c5_call_tool_params serverInitSample
      ⟨"2.0", some (.num 3), "tools/call",
        some (.obj [("name", .str "echo")])⟩
      rfl rfl).2.2 (.obj [("name", .str "echo")]) ⟨"echo", none⟩ rfl rfl rfl

/-- C7 counterexample: the claim says the `Resource` variant serializes as
a flat object with `uri` beside `type`; in the serialized form of a resource
content item there is no top-level `uri` field — the reference is nested
inside a `resource` wrapper field. -/
theorem c7_resource_nesting_counterexample :
    ((ToolContent.Resource ⟨"file:///a", none⟩).toJson).getField "uri" = none
    ∧ ((ToolContent.Resource ⟨"file:///a", none⟩).toJson).getField "resource"
        = some (.obj [("uri", .str "file:///a")])
    ∧ ((ToolContent.Resource ⟨"file:///a", none⟩).toJson).getField "type"
        = some (.str "resource") := ⟨rfl, rfl, rfl⟩

/-- C7 (amended): every `ToolContent` variant serializes with the explicit
discriminant field `type` and its own fields at the same JSON level —
Text as type/text and Image as type/data/mimeType, flat as claimed — but the
Resource variant's own field is the wrapper `resource`, inside which the
`uri` and optional `text` are nested. -/
theorem c7_content_item_serialization (text data mimeType uri : String)
    (otext : Option String) :
    (ToolContent.Text text).toJson =
      .obj [("type", .str "text"), ("text", .str text)]
    ∧ (ToolContent.Image data mimeType).toJson =
      .obj [("type", .str "image"), ("data", .str data),
        ("mimeType", .str mimeType)]
    ∧ (ToolContent.Resource ⟨uri, otext⟩).toJson =
      .obj ([("type", .str "resource"),
        ("resource", .obj ([("uri", .str uri)] ++
          optField "text" (otext.map .str)))]) :=
  ⟨rfl, rfl, rfl⟩

/-- C8 counterexample: the claim says a Response's `None` id is absent from
the wire form entirely; serializing a response whose id is `None` emits an
`id` field with value `null`. -/
theorem c8_response_id_null_counterexample :
    (JsonRpcResponse.mk "2.0" none (some (.str "ok")) none).toJson.getField
      "id" = some Json.null := rfl

/-- C8 (amended): optional fields carrying `skip_serializing_if` are omitted
from the wire form exactly when `None` — a Response's `result` and `error`,
and a call-tool result's `isError`, which `into_call_result` sets to `None`
when false — but the Response `id` field has no skip attribute and is always
emitted, as `null` when `None`. -/
theorem c8_optional_field_presence (r : JsonRpcResponse) (tr : ToolResult) :
    r.toJson.getField "result" = r.result
    ∧ r.toJson.getField "error" = r.error.map JsonRpcError.toJson
    ∧ r.toJson.getField "id" = some (Json.ofOption r.id)
    ∧ tr.intoCallResult.toJson.getField "isError" =
        (if tr.isError then some (.bool true) else none) := by
  refine ⟨?_, ?_, ?_, ?_⟩
  · cases hr : r.result <;>
      cases he : r.error <;>
      simp [JsonRpcResponse.toJson, Json.getField, optField, hr, he,
        List.find?]
  · cases hr : r.result <;>
      cases he : r.error <;>
      simp [JsonRpcResponse.toJson, Json.getField, optField, hr, he,
        List.find?]
  · cases hr : r.result <;>
      cases he : r.error <;>
      simp [JsonRpcResponse.toJson, Json.getField, optField, hr, he,
        List.find?]
  · cases hi : tr.isError <;>
      simp [ToolResult.intoCallResult, CallToolResult.toJson, Json.getField,
        optField, hi, List.find?]

/-- C9 counterexample: the claim says the closed inbound channel exits the
loop as a clean shutdown; its error message "Request channel closed" fails
the `contains("EOF reached")` check, so the loop exits through the
error-logged transport-failure path instead. -/
theorem c9_channel_close_counterexample :
    (serverSample.runLoop [.error channelClosedError]).2.2 =
      ExitKind.transportFailure
    ∧ ExitKind.transportFailure ≠ ExitKind.cleanDisconnect :=
  ⟨rfl, by decide⟩

/-- C9 (amended): end of input with zero messages moves the state to
`Shutdown` on both transports, but only the stdio transport's
`TransportError "EOF reached"` takes the clean client-disconnected exit; the
channel transport's `TransportError "Request channel closed"` exits through
the error-logged transport-failure path. -/
theorem c9_end_of_input_exit_paths (s : Server) :
    s.runStdio [] =
      ({ s with state := ServerState.Shutdown }, [], ExitKind.cleanDisconnect)
    ∧ s.runLoop [.error stdioEofError] =
      ({ s with state := ServerState.Shutdown }, [], ExitKind.cleanDisconnect)
    ∧ s.runLoop [.error channelClosedError] =
      ({ s with state := ServerState.Shutdown }, [],
        ExitKind.transportFailure) :=
  ⟨rfl, rfl, rfl⟩

/-- C10 counterexample: the claim says blank-line skipping is an iterative
retry whose call depth does not grow with the number of consecutive blank
lines; the self-call nesting of a single `read_message` invocation is 3 on
two blank lines followed by a valid one, against 1 with no blank line. -/
theorem c10_recursion_depth_counterexample :
    readMessageDepth [blankLineSample, blankLineSample, validLineSample] = 3
    ∧ readMessageDepth [validLineSample] = 1
    ∧ (3 : Nat) ≠ 1 := ⟨rfl, rfl, by decide⟩

/-- C10 (amended): `read_message` skips every blank line and returns the
outcome of reading the next line — producing no outcome for blank lines and
not stalling subsequent reads — but the skipping is implemented as a
recursive self-call per blank line (`// Recursively try again`), whose
nesting depth grows linearly with the number of consecutive blank lines. -/
theorem c10_blank_line_skipping (blanks rest : List RawLine)
    (h : ∀ l ∈ blanks, l.trimmed = "") :
    readMessage (blanks ++ rest) = readMessage rest
    ∧ readMessageDepth (blanks ++ rest) =
        blanks.length + readMessageDepth rest := by
  induction blanks with
  | nil => simp
  | cons b bs ih =>
    have hb : b.trimmed = "" := h b (by simp)
    obtain ⟨ih1, ih2⟩ := ih (fun l hl => h l (by simp [hl]))
    refine ⟨?_, ?_⟩
    · rw [List.cons_append, readMessage, if_pos hb]
      exact ih1
    · rw [List.cons_append, readMessageDepth.eq_def]
      simp only [if_pos hb]
      rw [ih2]
      simp [List.length_cons]
      omega

/-- C10 witness: one blank line before a valid line is skipped and adds one
level of self-call nesting. -/
theorem c10_blank_line_skipping_witness :
    readMessage [blankLineSample, validLineSample] =
      readMessage [validLineSample]
    ∧ readMessageDepth [blankLineSample, validLineSample] =
      [blankLineSample].length + readMessageDepth [validLineSample] :=
  c10_blank_line_skipping [blankLineSample] [validLineSample]
    (fun l hl => by rw [List.mem_singleton] at hl; rw [hl]; rfl)
